import Mathlib

/-!
Shallow embedding of the persona-arcana-mobile backend
authentication/session/ownership subsystem.

The definitions below are translated from the JavaScript
sources of the repository:

* `backend/middleware/auth.js` (embedded in
  `backend/docs/DIGITALOCEAN_SETUP.md`): `generateToken`, `verifyToken`,
  `requireAuth`, `validateToken`, `requireOwnership`;
* `backend/config/passport.js` (`src/unnamed/part_001`): the Google OAuth
  verify callback and the passport JWT strategy;
* `backend/routes/auth.js` (`src/unnamed/part_005`): the `jwt.sign` call of the callback
  route;
* `backend/models/User.js`: the user schema, its defaults and unique
  indexes;
* `backend/config/environment.js` (second half of
  `src/backend/config/session.js`): `validateEnvironment`;
* `backend/server.js`: the startup validation gate.

The `jsonwebtoken` library is modelled with a perfect-cryptography
assumption: a signature is an abstract pair of the signing secret and the
signed payload, and signature checking is equality of that pair.  MongoDB
and Mongoose are modelled by a list of user records together with the
schema-level validation (`required` fields) and the unique indexes
declared in `User.js`.
-/

set_option autoImplicit false

namespace PersonaArcana

/-! ## JWT model (`jsonwebtoken` wrapped by the auth middleware) -/

/-- The JWT payload produced by `jwt.sign` in the callback route and in
`generateToken`: the custom claims `userId`, `email`, `name` plus the
registered claims `iss`, `aud`, `iat`, `exp`. -/
structure Payload where
  userId : Nat
  email : String
  name : String
  iss : String
  aud : String
  iat : Nat
  exp : Nat
  deriving DecidableEq, Repr

/-- Abstract model of an HMAC signature: the signing secret together with
the payload that was signed.  Two signatures are equal exactly when both
the secret and the signed payload agree (perfect-cryptography
assumption). -/
structure Sig where
  secret : String
  signedPayload : Payload
  deriving DecidableEq, Repr

/-- Computing the signature over a payload with a secret. -/
def mkSig (secret : String) (p : Payload) : Sig :=
  ⟨secret, p⟩

/-- A compact JWT string either parses into a payload and a signature or
is structurally unparsable (`jwt malformed` in `jsonwebtoken`). -/
inductive Token where
  | wellFormed (payload : Payload) (sig : Sig)
  | malformed (raw : String)
  deriving DecidableEq, Repr

/-- `expiresIn: "30d"` — thirty days in seconds. -/
def thirtyDays : Nat := 30 * 24 * 60 * 60

/-- `issuer: "persona-arcana-api"` in the `jwt.sign` options. -/
def apiIssuer : String := "persona-arcana-api"

/-- `audience: "persona-arcana-mobile"` in the `jwt.sign` options. -/
def apiAudience : String := "persona-arcana-mobile"

/-- `generateToken(user)` from the auth middleware (the callback route in
`routes/auth.js` performs the identical `jwt.sign` call): signs
`{userId, email, name}` with `JWT_SECRET` and the options
`expiresIn: "30d"`, `issuer: "persona-arcana-api"`,
`audience: "persona-arcana-mobile"`.  `now` is the issue instant in
seconds since the epoch (`iat`). -/
def generateToken (secret : String) (now : Nat) (userId : Nat)
    (email name : String) : Token :=
  let p : Payload :=
    { userId := userId, email := email, name := name,
      iss := apiIssuer, aud := apiAudience,
      iat := now, exp := now + thirtyDays }
  .wellFormed p (mkSig secret p)

/-- The errors `jsonwebtoken` raises from `jwt.verify`, discriminated by
`error.name` as the middleware does.  A structurally unparsable token
raises `JsonWebTokenError` with message `"jwt malformed"`; a signature
mismatch raises `JsonWebTokenError` with message `"invalid signature"`;
an expired token raises `TokenExpiredError`. -/
inductive JwtError where
  | jsonWebTokenError (message : String)
  | tokenExpiredError
  deriving DecidableEq, Repr

/-- `jwt.verify(token, process.env.JWT_SECRET)` exactly as every call
site in the repository invokes it — with no `issuer`, `audience` or other
options.  The library decodes the token, checks the signature against the
secret, then checks `exp` against the clock; with no options passed it
performs no issuer or audience comparison. -/
def jwtVerify (secret : String) (now : Nat) : Token → Except JwtError Payload
  | .malformed _ => .error (.jsonWebTokenError "jwt malformed")
  | .wellFormed p s =>
    if s ≠ mkSig secret p then .error (.jsonWebTokenError "invalid signature")
    else if p.exp ≤ now then .error .tokenExpiredError
    else .ok p

/-- `verifyToken(token)` from the auth middleware:
`jwt.verify(token, process.env.JWT_SECRET)`. -/
def verifyToken (secret : String) (now : Nat) (t : Token) :
    Except JwtError Payload :=
  jwtVerify secret now t

/-! ## User model (`models/User.js`) -/

/-- The `onboarding` sub-document of the user schema.  Its defaults are
`completed: false` and `step: "welcome"`. -/
structure Onboarding where
  completed : Bool
  step : String
  deriving DecidableEq, Repr

/-- The `stats` sub-document of the user schema.  Its defaults are
`totalEntries: 0` and `streakDays: 0`. -/
structure Stats where
  totalEntries : Nat
  streakDays : Nat
  deriving DecidableEq, Repr

/-- A persisted user record per `userSchema` in `models/User.js`.
MongoDB ObjectIds are modelled as natural numbers. -/
structure User where
  _id : Nat
  googleId : Option String
  email : String
  name : String
  profileImage : Option String
  googleImage : Option String
  onboarding : Onboarding
  stats : Stats
  deriving DecidableEq, Repr

/-- The `lowercase: true` setter on the `email` path of the schema:
every character mapped to its lowercase form. -/
def emailNorm (e : String) : String := String.mk (e.data.map Char.toLower)

/-- Mongoose document validation for `userSchema`: `email` and `name`
are `required: true`, and for string paths the required validator
rejects missing and empty values. -/
def schemaValid (u : User) : Bool :=
  !(u.email == "") && !(u.name == "")

/-- Would inserting or updating to `u` violate one of the unique indexes
`{email: 1} unique` or `{googleId: 1} unique sparse` against the other
records of the store? -/
def uniqueViolation (store : List User) (u : User) : Bool :=
  store.any fun v =>
    (!(v._id == u._id)) &&
      (v.email == u.email || (u.googleId.isSome && v.googleId == u.googleId))

/-- Errors surfaced by the MongoDB/Mongoose layer: a unique-index
duplicate-key error (`E11000`) or a schema validation failure. -/
inductive DbError where
  | duplicateKey
  | validationFailed
  deriving DecidableEq, Repr

/-- `User.findOne({ googleId: ... })`. -/
def findByGoogleId (store : List User) (gid : String) : Option User :=
  store.find? fun u => decide (u.googleId = some gid)

/-- `User.findById(id)`. -/
def findById (store : List User) (id : Nat) : Option User :=
  store.find? fun u => decide (u._id = id)

/-- `User.create({googleId, email, name, googleImage})`: builds a
document with the schema defaults for every path not supplied
(`profileImage: null`, `onboarding: {completed: false, step: "welcome"}`,
`stats: {totalEntries: 0, streakDays: 0}`), runs schema validation, then
inserts subject to the unique indexes.  `newId` is the fresh ObjectId
MongoDB assigns. -/
def dbCreate (store : List User) (newId : Nat) (gid email name : String)
    (gImage : Option String) : Except DbError (User × List User) :=
  let u : User :=
    { _id := newId, googleId := some gid, email := emailNorm email,
      name := name, profileImage := none, googleImage := gImage,
      onboarding := { completed := false, step := "welcome" },
      stats := { totalEntries := 0, streakDays := 0 } }
  if !(schemaValid u) then .error .validationFailed
  else if uniqueViolation store u then .error .duplicateKey
  else .ok (u, store ++ [u])

/-- `user.save()` on an already-persisted document: runs schema
validation, then writes the updated document back subject to the unique
indexes, replacing the record with the same `_id`. -/
def dbSave (store : List User) (u : User) : Except DbError (List User) :=
  if !(schemaValid u) then .error .validationFailed
  else if uniqueViolation store u then .error .duplicateKey
  else .ok (store.map fun v => if v._id = u._id then u else v)

/-! ## Google OAuth verify callback (`config/passport.js`) -/

/-- The provider profile handed to the verify callback, per the design
note: `{id, displayName, emails[].value, photos[].value}`. -/
structure GoogleProfile where
  id : String
  displayName : String
  emails : List String
  photos : List String
  deriving DecidableEq, Repr

/-- Terminal failures of the verify callback: `done(new Error("No email
provided by Google"), null)` or `done(error, null)` for a caught
database error. -/
inductive CallbackError where
  | noEmailFromGoogle
  | db (e : DbError)
  deriving DecidableEq, Repr

/-- The email assigned on the update path:
`profile.emails && profile.emails[0] ? profile.emails[0].value : user.email`,
passed through the schema lowercase setter on assignment. -/
def callbackEmail (user : User) (profile : GoogleProfile) : String :=
  emailNorm
    (match profile.emails.head? with
     | some e => e
     | none => user.email)

/-- The three assignments of the update path of the verify callback:
`user.name = profile.displayName`,
`user.googleImage = profile.photos && profile.photos[0] ? ... : null`,
`user.email = profile.emails && profile.emails[0] ? ... : user.email`.
Every other path of the document is untouched. -/
def updatedUser (user : User) (profile : GoogleProfile) : User :=
  { user with
    name := profile.displayName,
    googleImage := profile.photos.head?,
    email := callbackEmail user profile }

/-- The document built by the create path,
`User.create({googleId: profile.id, email, name: profile.displayName,
googleImage: ...})`, with the schema defaults filled in. -/
def createdUser (nextId : Nat) (profile : GoogleProfile) (e : String) : User :=
  { _id := nextId, googleId := some profile.id, email := emailNorm e,
    name := profile.displayName, profileImage := none,
    googleImage := profile.photos.head?,
    onboarding := { completed := false, step := "welcome" },
    stats := { totalEntries := 0, streakDays := 0 } }

/-- The `GoogleStrategy` verify callback.  It looks the user up by
`googleId` only; on a hit it assigns `name`, `googleImage` and `email`
(keeping the old email when the profile carries none) and saves; on a
miss it requires an email and creates a fresh user with the schema
defaults.  On success it returns the user together with the resulting
store. -/
def googleVerify (store : List User) (nextId : Nat)
    (profile : GoogleProfile) : Except CallbackError (User × List User) :=
  match findByGoogleId store profile.id with
  | some user =>
    match dbSave store (updatedUser user profile) with
    | .ok s => .ok (updatedUser user profile, s)
    | .error e => .error (.db e)
  | none =>
    match profile.emails.head? with
    | none => .error .noEmailFromGoogle
    | some email =>
      match dbCreate store nextId profile.id email profile.displayName
          profile.photos.head? with
      | .ok us => .ok us
      | .error e => .error (.db e)

/-! ## Authorization middleware (`middleware/auth.js`) -/

/-- The `Authorization` request header, as both token extractors see it:
absent, present but not of the `Bearer <token>` shape, or carrying a
compact JWT. -/
inductive AuthHeader where
  | missing
  | notBearer (raw : String)
  | bearer (t : Token)
  deriving DecidableEq, Repr

/-- Outcome of an authentication middleware: either `next()` was called
with `req.user` set to the loaded record, or a response was sent with an
HTTP status and an envelope `code`. -/
inductive AuthOutcome where
  | success (user : User)
  | failure (status : Nat) (code : String)
  deriving DecidableEq, Repr

/-- `requireAuth`: `passport.authenticate("jwt")` with the strategy from
`config/passport.js` (bearer extraction, `jwt.verify` against
`JWT_SECRET` with no further options, then `User.findById(payload.userId)`;
a missing user yields `done(null, false)`).  The wrapper sends
401 `UNAUTHORIZED` whenever no user was produced, and attaches the user
to `req.user` otherwise. -/
def requireAuth (secret : String) (now : Nat) (store : List User) :
    AuthHeader → AuthOutcome
  | .missing => .failure 401 "UNAUTHORIZED"
  | .notBearer _ => .failure 401 "UNAUTHORIZED"
  | .bearer t =>
    match jwtVerify secret now t with
    | .error _ => .failure 401 "UNAUTHORIZED"
    | .ok p =>
      match findById store p.userId with
      | some u => .success u
      | none => .failure 401 "UNAUTHORIZED"

/-- `validateToken`: manual bearer extraction (401 `NO_TOKEN` when the
header is absent or lacks the `Bearer ` prefix), `jwt.verify`, then a
branch on `error.name` — `JsonWebTokenError` maps to 401 `INVALID_TOKEN`
and `TokenExpiredError` to 401 `TOKEN_EXPIRED` — and finally
`User.findById(decoded.userId)`, sending 401 `USER_NOT_FOUND` when the
subject no longer exists. -/
def validateToken (secret : String) (now : Nat) (store : List User) :
    AuthHeader → AuthOutcome
  | .missing => .failure 401 "NO_TOKEN"
  | .notBearer _ => .failure 401 "NO_TOKEN"
  | .bearer t =>
    match jwtVerify secret now t with
    | .error (.jsonWebTokenError _) => .failure 401 "INVALID_TOKEN"
    | .error .tokenExpiredError => .failure 401 "TOKEN_EXPIRED"
    | .ok p =>
      match findById store p.userId with
      | some u => .success u
      | none => .failure 401 "USER_NOT_FOUND"

/-- The places `requireOwnership(resourceUserIdField)` looks for the
owning user id of the resource: `req.params`, `req.body`, then
`req.resource`, in that order.  JavaScript truthiness makes an empty
string count as absent. -/
structure OwnershipReq where
  paramField : Option String
  bodyField : Option String
  resourceField : Option String
  deriving DecidableEq, Repr

/-- JavaScript truthiness of an optional string field. -/
def jsPresent : Option String → Bool
  | none => false
  | some s => !(s == "")

/-- The `resourceUserId` selection cascade inside `requireOwnership`. -/
def pickResourceUserId (r : OwnershipReq) : Option String :=
  if jsPresent r.paramField then r.paramField
  else if jsPresent r.bodyField then r.bodyField
  else if jsPresent r.resourceField then r.resourceField
  else none

/-- Outcome of the ownership middleware. -/
inductive OwnershipOutcome where
  | next
  | failure (status : Nat) (code : String)
  deriving DecidableEq, Repr

/-- `requireOwnership`: 401 `UNAUTHORIZED` when no authenticated user is
attached, 400 `RESOURCE_USER_ID_MISSING` when no owning id can be found,
403 `ACCESS_DENIED` when `req.user._id.toString()` differs from the
owning id of the resource, `next()` otherwise. -/
def requireOwnership (reqUser : Option User) (r : OwnershipReq) :
    OwnershipOutcome :=
  match reqUser with
  | none => .failure 401 "UNAUTHORIZED"
  | some u =>
    match pickResourceUserId r with
    | none => .failure 400 "RESOURCE_USER_ID_MISSING"
    | some rid =>
      if toString u._id ≠ rid then .failure 403 "ACCESS_DENIED"
      else .next

/-- Outcome of the composed `requireAuth` → `requireOwnership` chain on
an ownership-gated route: either some middleware responded, or the
downstream handler ran with `req.user` attached. -/
inductive PipelineOutcome where
  | handled (status : Nat) (code : String)
  | reached (user : User)
  deriving DecidableEq, Repr

/-- The Express middleware chain of an ownership-gated endpoint:
`requireAuth` runs first and short-circuits on failure; only when it has
attached `req.user` does `requireOwnership` run, over that attached
user. -/
def authThenOwnership (secret : String) (now : Nat) (store : List User)
    (h : AuthHeader) (r : OwnershipReq) : PipelineOutcome :=
  match requireAuth secret now store h with
  | .failure s c => .handled s c
  | .success u =>
    match requireOwnership (some u) r with
    | .failure s c => .handled s c
    | .next => .reached u

/-! ## Config validator (`config/environment.js`) and startup gate
(`server.js`)

The required variables of the Joi schema are modelled.  Variables with
defaults (`NODE_ENV`, `PORT`, `DO_SPACES_REGION`, ...) and the optional
ones cannot be *missing*; they are outside the claims and omitted.  Each
check returns the list of Joi `error.details` messages it contributes —
the custom message where the schema declares one, a Joi-default-style
message otherwise.  `validate` is called with `abortEarly: false`, so
the messages of all failing variables are concatenated. -/

/-- The process environment, restricted to the required
variables of the Joi schema.  `none` models an unset variable. -/
structure Env where
  MONGODB_URI : Option String
  DO_SPACES_ENDPOINT : Option String
  DO_SPACES_BUCKET : Option String
  DO_SPACES_ACCESS_KEY : Option String
  DO_SPACES_SECRET_KEY : Option String
  JWT_SECRET : Option String
  GOOGLE_CLIENT_ID : Option String
  GOOGLE_CLIENT_SECRET : Option String
  SESSION_SECRET : Option String
  deriving DecidableEq, Repr

/-- `Joi.string().uri({scheme: mongodb, mongodb+srv}).required()`. -/
def checkMongoUri : Option String → List String
  | none => ["MONGODB_URI is required. Get this from MongoDB Atlas dashboard."]
  | some v =>
    if v.startsWith "mongodb://" || v.startsWith "mongodb+srv://" then []
    else ["MONGODB_URI must be a valid MongoDB connection string"]

/-- `Joi.string().uri({scheme: https}).required()` with a custom
required message only. -/
def checkSpacesEndpoint : Option String → List String
  | none => ["DO_SPACES_ENDPOINT is required. Example: https://nyc3.digitaloceanspaces.com"]
  | some v =>
    if v.startsWith "https://" then []
    else ["\"DO_SPACES_ENDPOINT\" must be a valid uri with a scheme matching the https pattern"]

/-- A character admitted by `[a-z0-9]` in the bucket-name pattern. -/
def bucketAlnum (c : Char) : Bool := c.isLower || c.isDigit

/-- A character admitted by `[a-z0-9-]` in the bucket-name pattern. -/
def bucketInner (c : Char) : Bool := bucketAlnum c || c == '-'

/-- The regex `/^[a-z0-9][a-z0-9-]*[a-z0-9]$/`. -/
def validBucketPat (s : String) : Bool :=
  let cs := s.toList
  match cs.head?, cs.getLast? with
  | some a, some b =>
    bucketAlnum a && bucketAlnum b && decide (2 ≤ cs.length) &&
      ((cs.drop 1).dropLast.all bucketInner)
  | _, _ => false

/-- `Joi.string().min(3).max(63).pattern(...).required()` for
`DO_SPACES_BUCKET`. -/
def checkSpacesBucket : Option String → List String
  | none => ["DO_SPACES_BUCKET is required. Create a bucket in DigitalOcean Spaces."]
  | some v =>
    (if v.length < 3 then ["\"DO_SPACES_BUCKET\" length must be at least 3 characters long"] else []) ++
    (if 63 < v.length then ["\"DO_SPACES_BUCKET\" length must be less than or equal to 63 characters long"] else []) ++
    (if validBucketPat v then []
     else ["DO_SPACES_BUCKET must be a valid bucket name (lowercase, alphanumeric, hyphens)"])

/-- `Joi.string().length(20).required()` for `DO_SPACES_ACCESS_KEY`. -/
def checkSpacesAccessKey : Option String → List String
  | none => ["DO_SPACES_ACCESS_KEY is required. Generate from DigitalOcean → API → Spaces Keys."]
  | some v =>
    if v.length = 20 then []
    else ["\"DO_SPACES_ACCESS_KEY\" length must be 20 characters long"]

/-- `Joi.string().min(40).required()` for `DO_SPACES_SECRET_KEY`. -/
def checkSpacesSecretKey : Option String → List String
  | none => ["DO_SPACES_SECRET_KEY is required. Generate from DigitalOcean → API → Spaces Keys."]
  | some v =>
    if 40 ≤ v.length then []
    else ["\"DO_SPACES_SECRET_KEY\" length must be at least 40 characters long"]

/-- `Joi.string().min(32).required()` for `JWT_SECRET`, both messages
customized in the schema. -/
def checkJwtSecret : Option String → List String
  | none => ["JWT_SECRET is required. Generate a secure random string."]
  | some v =>
    if 32 ≤ v.length then []
    else ["JWT_SECRET must be at least 32 characters long for security"]

/-- `Joi.string().pattern(/\.apps\.googleusercontent\.com$/).required()`
for `GOOGLE_CLIENT_ID`. -/
def checkGoogleClientId : Option String → List String
  | none => ["GOOGLE_CLIENT_ID is required. Get from Google Cloud Console."]
  | some v =>
    if v.endsWith ".apps.googleusercontent.com" then []
    else ["GOOGLE_CLIENT_ID must end with .apps.googleusercontent.com"]

/-- `Joi.string().min(24).required()` for `GOOGLE_CLIENT_SECRET`. -/
def checkGoogleClientSecret : Option String → List String
  | none => ["GOOGLE_CLIENT_SECRET is required. Get from Google Cloud Console."]
  | some v =>
    if 24 ≤ v.length then []
    else ["\"GOOGLE_CLIENT_SECRET\" length must be at least 24 characters long"]

/-- `Joi.string().min(32).required()` for `SESSION_SECRET`, both
messages customized in the schema. -/
def checkSessionSecret : Option String → List String
  | none => ["SESSION_SECRET is required. Generate a secure random string."]
  | some v =>
    if 32 ≤ v.length then []
    else ["SESSION_SECRET must be at least 32 characters long for security"]

/-- All `error.details` messages of
`envSchema.validate(process.env, {abortEarly: false, ...})`, in schema
order. -/
def envErrors (e : Env) : List String :=
  checkMongoUri e.MONGODB_URI ++
  checkSpacesEndpoint e.DO_SPACES_ENDPOINT ++
  checkSpacesBucket e.DO_SPACES_BUCKET ++
  checkSpacesAccessKey e.DO_SPACES_ACCESS_KEY ++
  checkSpacesSecretKey e.DO_SPACES_SECRET_KEY ++
  checkJwtSecret e.JWT_SECRET ++
  checkGoogleClientId e.GOOGLE_CLIENT_ID ++
  checkGoogleClientSecret e.GOOGLE_CLIENT_SECRET ++
  checkSessionSecret e.SESSION_SECRET

/-- `validateEnvironment()`: on any validation failure it prints every
collected message and throws; on success it returns the validated
environment. -/
def validateEnvironment (e : Env) : Except (List String) Env :=
  match envErrors e with
  | [] => .ok e
  | msgs => .error msgs

/-- What the process does at startup. -/
inductive StartupOutcome where
  | exited (code : Nat) (reported : List String)
  | serving (config : Env)
  deriving DecidableEq, Repr

/-- The startup gate in `server.js`: `validateEnvironment()` inside
`try`/`catch`, with `process.exit(1)` on failure — the app object and
its routes are only ever used after this point. -/
def serverStartup (e : Env) : StartupOutcome :=
  match validateEnvironment e with
  | .ok cfg => .serving cfg
  | .error msgs => .exited 1 msgs

/-! ## Claims -/

/-- Claim C1: for every identity (id, email, display name), issuing a
token via `generateToken` and verifying it at any instant before the
expiry succeeds and yields claims whose subject id, email and name equal
those of the identity used to issue, whose issuer claim is
`persona-arcana-api` and audience claim `persona-arcana-mobile`, and
whose expiry equals the issue instant plus 30 days. -/
theorem issue_then_verify_roundtrip (secret : String) (userId : Nat)
    (email name : String) (issuedAt t : Nat)
    (h : t < issuedAt + thirtyDays) :
    jwtVerify secret t (generateToken secret issuedAt userId email name) =
      .ok { userId := userId, email := email, name := name,
            iss := apiIssuer, aud := apiAudience,
            iat := issuedAt, exp := issuedAt + thirtyDays } := by
  have hx : ¬ (issuedAt + thirtyDays ≤ t) := by omega
  simp [generateToken, jwtVerify, mkSig, hx]

/-- Witness for C1 at a concrete identity and instant. -/
theorem issue_then_verify_roundtrip_witness :
    jwtVerify "0123456789abcdef0123456789abcdef" 100
        (generateToken "0123456789abcdef0123456789abcdef" 50 7 "a@b.com" "Ada") =
      .ok { userId := 7, email := "a@b.com", name := "Ada",
            iss := apiIssuer, aud := apiAudience,
            iat := 50, exp := 50 + thirtyDays } :=
  issue_then_verify_roundtrip "0123456789abcdef0123456789abcdef" 7 "a@b.com"
    "Ada" 50 100 (by decide)

/-- Counterexample to claim C2: a token signed with the server secret but
carrying issuer `not-the-issuer` and audience `not-the-audience`, well
before its expiry, is accepted by `jwt.verify` as the repository calls it
(no issuer/audience options), not rejected. -/
theorem mismatched_issuer_audience_token_accepted :
    (let p : Payload :=
      { userId := 1, email := "a@b.com", name := "Eve",
        iss := "not-the-issuer", aud := "not-the-audience",
        iat := 0, exp := 1000 };
     jwtVerify "server-secret-0123456789abcdef01" 10
        (.wellFormed p (mkSig "server-secret-0123456789abcdef01" p)) = .ok p ∧
     p.iss ≠ apiIssuer ∧ p.aud ≠ apiAudience ∧ ¬ p.exp ≤ 10) := by
  refine ⟨rfl, by decide, by decide, by decide⟩

/-- Amended claim C2: token verification does not inspect the issuer or
audience claims at all — every token that carries a valid signature under
the server secret and is unexpired is accepted, whatever its issuer and
audience claims are. -/
theorem verify_ignores_issuer_audience (secret : String) (p : Payload)
    (now : Nat) (h : now < p.exp) :
    jwtVerify secret now (.wellFormed p (mkSig secret p)) = .ok p := by
  have hx : ¬ p.exp ≤ now := by omega
  simp [jwtVerify, hx]

/-- Witness for the amended claim C2 at a concrete payload whose issuer
and audience differ from the expected constants. -/
theorem verify_ignores_issuer_audience_witness :
    jwtVerify "k" 0
        (.wellFormed
          { userId := 2, email := "e@x.com", name := "N",
            iss := "evil-iss", aud := "evil-aud", iat := 0, exp := 5 }
          (mkSig "k"
            { userId := 2, email := "e@x.com", name := "N",
              iss := "evil-iss", aud := "evil-aud", iat := 0, exp := 5 })) =
      .ok { userId := 2, email := "e@x.com", name := "N",
            iss := "evil-iss", aud := "evil-aud", iat := 0, exp := 5 } :=
  verify_ignores_issuer_audience "k"
    { userId := 2, email := "e@x.com", name := "N",
      iss := "evil-iss", aud := "evil-aud", iat := 0, exp := 5 }
    0 (by decide)

/-- Counterexample to claim C3: at the API boundary (`validateToken`), a
structurally unparsable token and a badly signed token are rejected with
the same code `INVALID_TOKEN` — there is no distinct malformed code. -/
theorem malformed_and_bad_signature_share_code :
    (let p : Payload :=
      { userId := 1, email := "a@b.com", name := "A",
        iss := apiIssuer, aud := apiAudience, iat := 0, exp := 1000 };
     validateToken "k" 0 [] (.bearer (.malformed "not.a.jwt")) =
        .failure 401 "INVALID_TOKEN" ∧
     validateToken "k" 0 [] (.bearer (.wellFormed p (mkSig "other" p))) =
        .failure 401 "INVALID_TOKEN") := by
  refine ⟨rfl, by decide⟩

/-- Amended claim C3: `validateToken` distinguishes only two failure
codes for bad tokens: an unexpired check never happens for issuer or
audience (they are not examined), a structurally unparsable token and a
token with an invalid signature both fail with 401 `INVALID_TOKEN`, and
a validly signed token past its expiry fails with 401 `TOKEN_EXPIRED`. -/
theorem validateToken_two_failure_codes (secret : String) (now : Nat)
    (store : List User) :
    (∀ raw, validateToken secret now store (.bearer (.malformed raw)) =
        .failure 401 "INVALID_TOKEN") ∧
    (∀ (p : Payload) (s : Sig), s ≠ mkSig secret p →
        validateToken secret now store (.bearer (.wellFormed p s)) =
          .failure 401 "INVALID_TOKEN") ∧
    (∀ p : Payload, p.exp ≤ now →
        validateToken secret now store (.bearer (.wellFormed p (mkSig secret p))) =
          .failure 401 "TOKEN_EXPIRED") := by
  refine ⟨fun raw => rfl, fun p s hs => ?_, fun p hexp => ?_⟩
  · simp [validateToken, jwtVerify, hs]
  · simp [validateToken, jwtVerify, hexp]

/-- Witness for the amended claim C3: all three modes at concrete
tokens. -/
theorem validateToken_two_failure_codes_witness :
    validateToken "k" 0 [] (.bearer (.malformed "zzz")) =
        .failure 401 "INVALID_TOKEN" ∧
    validateToken "k" 0 []
        (.bearer (.wellFormed
          { userId := 3, email := "w@x.com", name := "W",
            iss := apiIssuer, aud := apiAudience, iat := 0, exp := 9 }
          (mkSig "j"
            { userId := 3, email := "w@x.com", name := "W",
              iss := apiIssuer, aud := apiAudience, iat := 0, exp := 9 }))) =
        .failure 401 "INVALID_TOKEN" ∧
    validateToken "k" 20 []
        (.bearer (.wellFormed
          { userId := 3, email := "w@x.com", name := "W",
            iss := apiIssuer, aud := apiAudience, iat := 0, exp := 9 }
          (mkSig "k"
            { userId := 3, email := "w@x.com", name := "W",
              iss := apiIssuer, aud := apiAudience, iat := 0, exp := 9 }))) =
        .failure 401 "TOKEN_EXPIRED" :=
  ⟨(validateToken_two_failure_codes "k" 0 []).1 "zzz",
   (validateToken_two_failure_codes "k" 0 []).2.1 _ _ (by decide),
   (validateToken_two_failure_codes "k" 20 []).2.2 _ (by decide)⟩

/-- Claim C4: on an ownership-gated route, a request with a valid bearer
token for identity `a` against a resource owned by a different identity
`b` is rejected with HTTP 403 and code `ACCESS_DENIED` (not 401), and the
ownership check runs only after `requireAuth` has attached `a` — here
expressed by `requireAuth` succeeding with `a` and the composed chain
answering 403. -/
theorem cross_user_request_access_denied (secret : String) (now : Nat)
    (store : List User) (tok : Token) (p : Payload) (a b : User)
    (r : OwnershipReq)
    (hver : jwtVerify secret now tok = .ok p)
    (hfind : findById store p.userId = some a)
    (hres : pickResourceUserId r = some (toString b._id))
    (_hdiff : a._id ≠ b._id)
    (hstr : toString a._id ≠ toString b._id) :
    requireAuth secret now store (.bearer tok) = .success a ∧
    authThenOwnership secret now store (.bearer tok) r =
      .handled 403 "ACCESS_DENIED" := by
  have hra : requireAuth secret now store (.bearer tok) = .success a := by
    simp [requireAuth, hver, hfind]
  refine ⟨hra, ?_⟩
  simp [authThenOwnership, hra, requireOwnership, hres, hstr]

/-- Witness for C4: identity 1 presents a valid token and requests the
profile of identity 2. -/
theorem cross_user_request_access_denied_witness :
    requireAuth "k" 5
        [{ _id := 1, googleId := some "g1", email := "a@x.com", name := "A",
           profileImage := none, googleImage := none,
           onboarding := { completed := false, step := "welcome" },
           stats := { totalEntries := 0, streakDays := 0 } },
         { _id := 2, googleId := some "g2", email := "b@x.com", name := "B",
           profileImage := none, googleImage := none,
           onboarding := { completed := false, step := "welcome" },
           stats := { totalEntries := 0, streakDays := 0 } }]
        (.bearer (generateToken "k" 0 1 "a@x.com" "A")) =
      .success
        { _id := 1, googleId := some "g1", email := "a@x.com", name := "A",
          profileImage := none, googleImage := none,
          onboarding := { completed := false, step := "welcome" },
          stats := { totalEntries := 0, streakDays := 0 } } ∧
    authThenOwnership "k" 5
        [{ _id := 1, googleId := some "g1", email := "a@x.com", name := "A",
           profileImage := none, googleImage := none,
           onboarding := { completed := false, step := "welcome" },
           stats := { totalEntries := 0, streakDays := 0 } },
         { _id := 2, googleId := some "g2", email := "b@x.com", name := "B",
           profileImage := none, googleImage := none,
           onboarding := { completed := false, step := "welcome" },
           stats := { totalEntries := 0, streakDays := 0 } }]
        (.bearer (generateToken "k" 0 1 "a@x.com" "A"))
        { paramField := some (toString (2 : Nat)), bodyField := none,
          resourceField := none } =
      .handled 403 "ACCESS_DENIED" :=
  cross_user_request_access_denied "k" 5 _ _ _ _
    { _id := 2, googleId := some "g2", email := "b@x.com", name := "B",
      profileImage := none, googleImage := none,
      onboarding := { completed := false, step := "welcome" },
      stats := { totalEntries := 0, streakDays := 0 } }
    _ (by rfl) (by rfl) (by rfl) (by decide) (by decide)

/-- Claim C9: for every request whose `Authorization` header is missing,
not a bearer header, or carries a token that fails verification
(malformed, bad signature, or expired), both Required-mode middlewares
(`requireAuth` and `validateToken`) reject with status 401 and a code
among `NO_TOKEN`, `INVALID_TOKEN`, `TOKEN_EXPIRED`, `UNAUTHORIZED`; and
whenever either middleware succeeds, the user it attaches is the record
loaded from the store by the subject id of a token that verified. -/
theorem required_auth_contract (secret : String) (now : Nat)
    (store : List User) :
    (∀ h : AuthHeader,
      (h = .missing ∨ (∃ raw, h = .notBearer raw) ∨
        (∃ t er, h = .bearer t ∧ jwtVerify secret now t = .error er)) →
      ∃ c1 c2,
        requireAuth secret now store h = .failure 401 c1 ∧
        c1 ∈ ["NO_TOKEN", "INVALID_TOKEN", "TOKEN_EXPIRED", "UNAUTHORIZED"] ∧
        validateToken secret now store h = .failure 401 c2 ∧
        c2 ∈ ["NO_TOKEN", "INVALID_TOKEN", "TOKEN_EXPIRED", "UNAUTHORIZED"]) ∧
    (∀ (h : AuthHeader) (u : User),
      requireAuth secret now store h = .success u →
      ∃ t p, h = .bearer t ∧ jwtVerify secret now t = .ok p ∧
        findById store p.userId = some u) ∧
    (∀ (h : AuthHeader) (u : User),
      validateToken secret now store h = .success u →
      ∃ t p, h = .bearer t ∧ jwtVerify secret now t = .ok p ∧
        findById store p.userId = some u) := by
  refine ⟨?_, ?_, ?_⟩
  · rintro h (rfl | ⟨raw, rfl⟩ | ⟨t, er, rfl, hver⟩)
    · exact ⟨"UNAUTHORIZED", "NO_TOKEN", rfl, by decide, rfl, by decide⟩
    · exact ⟨"UNAUTHORIZED", "NO_TOKEN", rfl, by decide, rfl, by decide⟩
    · cases er with
      | jsonWebTokenError m =>
        exact ⟨"UNAUTHORIZED", "INVALID_TOKEN", by simp [requireAuth, hver],
          by decide, by simp [validateToken, hver], by decide⟩
      | tokenExpiredError =>
        exact ⟨"UNAUTHORIZED", "TOKEN_EXPIRED", by simp [requireAuth, hver],
          by decide, by simp [validateToken, hver], by decide⟩
  · intro h u hsucc
    cases h with
    | missing => exact absurd hsucc (by simp [requireAuth])
    | notBearer raw => exact absurd hsucc (by simp [requireAuth])
    | bearer t =>
      refine ⟨t, ?_⟩
      cases hver : jwtVerify secret now t with
      | error er => simp [requireAuth, hver] at hsucc
      | ok p =>
        cases hfind : findById store p.userId with
        | none => simp [requireAuth, hver, hfind] at hsucc
        | some v =>
          have hvu : v = u := by
            simpa [requireAuth, hver, hfind] using hsucc
          exact ⟨p, rfl, rfl, hvu ▸ hfind⟩
  · intro h u hsucc
    cases h with
    | missing => exact absurd hsucc (by simp [validateToken])
    | notBearer raw => exact absurd hsucc (by simp [validateToken])
    | bearer t =>
      refine ⟨t, ?_⟩
      cases hver : jwtVerify secret now t with
      | error er =>
        cases er with
        | jsonWebTokenError m => simp [validateToken, hver] at hsucc
        | tokenExpiredError => simp [validateToken, hver] at hsucc
      | ok p =>
        cases hfind : findById store p.userId with
        | none => simp [validateToken, hver, hfind] at hsucc
        | some v =>
          have hvu : v = u := by
            simpa [validateToken, hver, hfind] using hsucc
          exact ⟨p, rfl, rfl, hvu ▸ hfind⟩

/-- Witness for C9: the missing-header mode at a concrete store. -/
theorem required_auth_contract_witness :
    ∃ c1 c2,
      requireAuth "k" 0 [] .missing = .failure 401 c1 ∧
      c1 ∈ ["NO_TOKEN", "INVALID_TOKEN", "TOKEN_EXPIRED", "UNAUTHORIZED"] ∧
      validateToken "k" 0 [] .missing = .failure 401 c2 ∧
      c2 ∈ ["NO_TOKEN", "INVALID_TOKEN", "TOKEN_EXPIRED", "UNAUTHORIZED"] :=
  (required_auth_contract "k" 0 []).1 .missing (Or.inl rfl)

/-- Helper: on the update path, when the updated document passes schema
validation and collides with no unique index, the callback returns the
updated user and the store with that single record replaced. -/
theorem googleVerify_update_ok (store : List User) (nextId : Nat)
    (profile : GoogleProfile) (user : User)
    (hfind : findByGoogleId store profile.id = some user)
    (hname : profile.displayName ≠ "")
    (hne : callbackEmail user profile ≠ "")
    (hnocol : ∀ v ∈ store, v._id ≠ user._id →
        v.email ≠ callbackEmail user profile)
    (hgid : ∀ v ∈ store, v._id ≠ user._id →
        ¬ (user.googleId.isSome ∧ v.googleId = user.googleId)) :
    googleVerify store nextId profile =
      .ok (updatedUser user profile,
        store.map fun v =>
          if v._id = user._id then updatedUser user profile else v) := by
  have hsv : schemaValid (updatedUser user profile) = true := by
    simp [schemaValid, updatedUser, hne, hname]
  have huv : uniqueViolation store (updatedUser user profile) = false := by
    apply Bool.eq_false_iff.mpr
    intro hcon
    rw [uniqueViolation, List.any_eq_true] at hcon
    obtain ⟨v, hv, hp⟩ := hcon
    simp only [updatedUser, Bool.and_eq_true, Bool.or_eq_true,
      Bool.not_eq_eq_eq_not, Bool.not_true, beq_eq_false_iff_ne, ne_eq,
      beq_iff_eq, decide_eq_true_eq] at hp
    obtain ⟨hvid, hp2⟩ := hp
    rcases hp2 with hvemail | ⟨hsome, hvgid⟩
    · exact hnocol v hv hvid hvemail
    · exact hgid v hv hvid ⟨hsome, hvgid⟩
  simp [googleVerify, hfind, dbSave, hsv, huv]
  exact fun a _ => rfl

/-- Counterexample to claim C6: a callback for the known provider id
`g1` whose fresh profile email equals the email of a different existing
identity makes the save hit the unique email index: the callback fails
with a duplicate-key error and the display name and avatar are not
updated. -/
theorem known_provider_update_email_collision_fails :
    (findByGoogleId
        [{ _id := 1, googleId := some "g1", email := "a@x.com", name := "Old",
           profileImage := none, googleImage := none,
           onboarding := { completed := false, step := "welcome" },
           stats := { totalEntries := 0, streakDays := 0 } },
         { _id := 2, googleId := some "g2", email := "b@x.com", name := "Bea",
           profileImage := none, googleImage := none,
           onboarding := { completed := false, step := "welcome" },
           stats := { totalEntries := 0, streakDays := 0 } }] "g1" =
      some
        { _id := 1, googleId := some "g1", email := "a@x.com", name := "Old",
          profileImage := none, googleImage := none,
          onboarding := { completed := false, step := "welcome" },
          stats := { totalEntries := 0, streakDays := 0 } }) ∧
    googleVerify
        [{ _id := 1, googleId := some "g1", email := "a@x.com", name := "Old",
           profileImage := none, googleImage := none,
           onboarding := { completed := false, step := "welcome" },
           stats := { totalEntries := 0, streakDays := 0 } },
         { _id := 2, googleId := some "g2", email := "b@x.com", name := "Bea",
           profileImage := none, googleImage := none,
           onboarding := { completed := false, step := "welcome" },
           stats := { totalEntries := 0, streakDays := 0 } }] 3
        { id := "g1", displayName := "New", emails := ["b@x.com"],
          photos := ["https://p/new.jpg"] } =
      .error (.db .duplicateKey) :=
  ⟨rfl, rfl⟩

/-- Amended claim C6: for every OAuth callback presenting a provider id
matching an existing identity, with a nonempty display name and whose
effective (lowercased) email neither is empty nor belongs to a different
identity, the matched identity has its display name and avatar updated to
the fresh profile values and the record count is unchanged; when the
email does belong to a different identity the save instead fails on the
unique email index and nothing is updated. -/
theorem known_provider_update_refreshes_profile (store : List User)
    (nextId : Nat) (profile : GoogleProfile) (user : User)
    (hfind : findByGoogleId store profile.id = some user)
    (hname : profile.displayName ≠ "")
    (hne : callbackEmail user profile ≠ "")
    (hnocol : ∀ v ∈ store, v._id ≠ user._id →
        v.email ≠ callbackEmail user profile)
    (hgid : ∀ v ∈ store, v._id ≠ user._id →
        ¬ (user.googleId.isSome ∧ v.googleId = user.googleId)) :
    ∃ u s, googleVerify store nextId profile = .ok (u, s) ∧
      u._id = user._id ∧ u.name = profile.displayName ∧
      u.googleImage = profile.photos.head? ∧
      s.length = store.length :=
  ⟨updatedUser user profile, _,
    googleVerify_update_ok store nextId profile user hfind hname hne hnocol hgid,
    rfl, rfl, rfl, by simp⟩

/-- Witness for the amended claim C6 at a concrete store and profile. -/
theorem known_provider_update_refreshes_profile_witness :
    ∃ u s,
      googleVerify
          [{ _id := 1, googleId := some "g1", email := "a@x.com", name := "Old",
             profileImage := none, googleImage := none,
             onboarding := { completed := false, step := "welcome" },
             stats := { totalEntries := 0, streakDays := 0 } }] 2
          { id := "g1", displayName := "New", emails := ["a@x.com"],
            photos := ["https://p/new.jpg"] } = .ok (u, s) ∧
      u._id = 1 ∧ u.name = "New" ∧
      u.googleImage = some "https://p/new.jpg" ∧ s.length = 1 :=
  known_provider_update_refreshes_profile _ 2 _
    { _id := 1, googleId := some "g1", email := "a@x.com", name := "Old",
      profileImage := none, googleImage := none,
      onboarding := { completed := false, step := "welcome" },
      stats := { totalEntries := 0, streakDays := 0 } }
    (by rfl) (by decide) (by decide) (by decide) (by decide)

/-- Counterexample to claim C10: a known-provider callback whose profile
supplies the email `A@X.com` stores `a@x.com` (the schema lowercases on
assignment), so the stored email is not the profile email. -/
theorem known_provider_update_email_lowercased :
    googleVerify
        [{ _id := 1, googleId := some "g1", email := "a@x.com", name := "Nm",
           profileImage := none, googleImage := none,
           onboarding := { completed := false, step := "welcome" },
           stats := { totalEntries := 0, streakDays := 0 } }] 9
        { id := "g1", displayName := "Nm2", emails := ["A@X.com"],
          photos := [] } =
      .ok ({ _id := 1, googleId := some "g1", email := "a@x.com",
             name := "Nm2", profileImage := none, googleImage := none,
             onboarding := { completed := false, step := "welcome" },
             stats := { totalEntries := 0, streakDays := 0 } },
           [{ _id := 1, googleId := some "g1", email := "a@x.com",
              name := "Nm2", profileImage := none, googleImage := none,
              onboarding := { completed := false, step := "welcome" },
              stats := { totalEntries := 0, streakDays := 0 } }]) ∧
    ("a@x.com" : String) ≠ "A@X.com" :=
  ⟨rfl, by decide⟩

/-- Amended claim C10: on a known-provider callback (same provisos as the
amended C6, plus the store invariant that the matched identity has a
lowercased email), the stored email becomes the lowercased profile email
when the profile supplies one and is kept unchanged when it does not,
while the id, provider id, profile image, onboarding block, statistics
block, and every other record of the store are left unchanged. -/
theorem known_provider_update_frame (store : List User) (nextId : Nat)
    (profile : GoogleProfile) (user : User)
    (hfind : findByGoogleId store profile.id = some user)
    (hname : profile.displayName ≠ "")
    (hne : callbackEmail user profile ≠ "")
    (hnocol : ∀ v ∈ store, v._id ≠ user._id →
        v.email ≠ callbackEmail user profile)
    (hgid : ∀ v ∈ store, v._id ≠ user._id →
        ¬ (user.googleId.isSome ∧ v.googleId = user.googleId))
    (hlow : emailNorm user.email = user.email) :
    ∃ u s, googleVerify store nextId profile = .ok (u, s) ∧
      (∀ e, profile.emails.head? = some e → u.email = emailNorm e) ∧
      (profile.emails.head? = none → u.email = user.email) ∧
      u._id = user._id ∧ u.googleId = user.googleId ∧
      u.profileImage = user.profileImage ∧ u.onboarding = user.onboarding ∧
      u.stats = user.stats ∧ s.length = store.length ∧
      (∀ v ∈ store, v._id ≠ user._id → v ∈ s) := by
  refine ⟨updatedUser user profile, _,
    googleVerify_update_ok store nextId profile user hfind hname hne hnocol hgid,
    ?_, ?_, rfl, rfl, rfl, rfl, rfl, by simp, ?_⟩
  · intro e he
    simp [updatedUser, callbackEmail, he]
  · intro he
    simp [updatedUser, callbackEmail, he, hlow]
  · intro v hv hvid
    have : (if v._id = user._id then updatedUser user profile else v) = v :=
      if_neg hvid
    exact this ▸ List.mem_map_of_mem _ hv

/-- Witness for the amended claim C10 at a concrete store and profile
carrying a mixed-case email. -/
theorem known_provider_update_frame_witness :
    ∃ u s,
      googleVerify
          [{ _id := 1, googleId := some "g1", email := "a@x.com", name := "Nm",
             profileImage := none, googleImage := none,
             onboarding := { completed := false, step := "welcome" },
             stats := { totalEntries := 0, streakDays := 0 } }] 9
          { id := "g1", displayName := "Nm2", emails := ["A@X.com"],
            photos := [] } = .ok (u, s) ∧
      (∀ e, (["A@X.com"] : List String).head? = some e →
        u.email = emailNorm e) ∧
      ((["A@X.com"] : List String).head? = none → u.email = "a@x.com") ∧
      u._id = 1 ∧ u.googleId = some "g1" ∧ u.profileImage = none ∧
      u.onboarding = { completed := false, step := "welcome" } ∧
      u.stats = { totalEntries := 0, streakDays := 0 } ∧ s.length = 1 ∧
      (∀ v ∈ ([{ _id := 1, googleId := some "g1", email := "a@x.com",
                 name := "Nm", profileImage := none, googleImage := none,
                 onboarding := { completed := false, step := "welcome" },
                 stats := { totalEntries := 0, streakDays := 0 } }] : List User),
        v._id ≠ 1 → v ∈ s) :=
  known_provider_update_frame _ 9 _
    { _id := 1, googleId := some "g1", email := "a@x.com", name := "Nm",
      profileImage := none, googleImage := none,
      onboarding := { completed := false, step := "welcome" },
      stats := { totalEntries := 0, streakDays := 0 } }
    (by rfl) (by decide) (by decide) (by decide) (by decide) (by decide)

/-- Helper: on the create path, when the provider id is unseen, an email
is present, validation passes, the new ObjectId is fresh and no unique
index collides, the callback appends exactly the freshly created user. -/
theorem googleVerify_create_ok (store : List User) (nextId : Nat)
    (profile : GoogleProfile) (e : String)
    (hgid : ∀ v ∈ store, v.googleId ≠ some profile.id)
    (hemail : profile.emails.head? = some e)
    (hne : emailNorm e ≠ "") (hname : profile.displayName ≠ "")
    (hnocol : ∀ v ∈ store, v.email ≠ emailNorm e) :
    googleVerify store nextId profile =
      .ok (createdUser nextId profile e,
           store ++ [createdUser nextId profile e]) := by
  have hfind : findByGoogleId store profile.id = none := by
    rw [findByGoogleId, List.find?_eq_none]
    intro v hv
    simp [hgid v hv]
  have hsv : schemaValid (createdUser nextId profile e) = true := by
    simp [schemaValid, createdUser, hne, hname]
  have huv : uniqueViolation store (createdUser nextId profile e) = false := by
    apply Bool.eq_false_iff.mpr
    intro hcon
    rw [uniqueViolation, List.any_eq_true] at hcon
    obtain ⟨v, hv, hp⟩ := hcon
    simp only [createdUser, Bool.and_eq_true, Bool.or_eq_true,
      Bool.not_eq_eq_eq_not, Bool.not_true, beq_eq_false_iff_ne, ne_eq,
      beq_iff_eq, decide_eq_true_eq] at hp
    obtain ⟨hvid, hp2⟩ := hp
    rcases hp2 with hvemail | ⟨_hsome, hvgid⟩
    · exact hnocol v hv hvemail
    · exact hgid v hv hvgid
  simp only [createdUser] at hsv huv
  simp [googleVerify, hfind, hemail, dbCreate, hsv, huv, createdUser]

/-- Counterexample to claim C5: a callback with the previously-unseen
provider id `g2` together with the email `a@x.com`, which already belongs
to an existing identity, creates no identity at all — the create fails on
the unique email index. -/
theorem unseen_provider_email_collision_creates_nothing :
    (findByGoogleId
        [{ _id := 1, googleId := some "g1", email := "a@x.com",
           name := "Alice", profileImage := none, googleImage := none,
           onboarding := { completed := false, step := "welcome" },
           stats := { totalEntries := 0, streakDays := 0 } }] "g2" = none) ∧
    googleVerify
        [{ _id := 1, googleId := some "g1", email := "a@x.com",
           name := "Alice", profileImage := none, googleImage := none,
           onboarding := { completed := false, step := "welcome" },
           stats := { totalEntries := 0, streakDays := 0 } }] 2
        { id := "g2", displayName := "Bob", emails := ["a@x.com"],
          photos := [] } =
      .error (.db .duplicateKey) :=
  ⟨rfl, rfl⟩

/-- Amended claim C5: for every OAuth callback presenting a
previously-unseen provider id together with a nonempty email that does
not already belong to an existing identity (after lowercasing), and a
nonempty display name, exactly one new identity record is created —
the store grows by exactly that record — and its defaults are
`totalEntries = 0`, `streakDays = 0`, onboarding step `welcome`. -/
theorem fresh_provider_creates_one_identity (store : List User)
    (nextId : Nat) (profile : GoogleProfile) (e : String)
    (hgid : ∀ v ∈ store, v.googleId ≠ some profile.id)
    (hemail : profile.emails.head? = some e)
    (hne : emailNorm e ≠ "") (hname : profile.displayName ≠ "")
    (hnocol : ∀ v ∈ store, v.email ≠ emailNorm e) :
    ∃ u, googleVerify store nextId profile = .ok (u, store ++ [u]) ∧
      u.googleId = some profile.id ∧ u.email = emailNorm e ∧
      u.stats.totalEntries = 0 ∧ u.stats.streakDays = 0 ∧
      u.onboarding.step = "welcome" ∧ u.onboarding.completed = false :=
  ⟨createdUser nextId profile e,
    googleVerify_create_ok store nextId profile e hgid hemail hne hname
      hnocol,
    rfl, rfl, rfl, rfl, rfl, rfl⟩

/-- Witness for the amended claim C5 at a concrete store and profile. -/
theorem fresh_provider_creates_one_identity_witness :
    ∃ u,
      googleVerify
          [{ _id := 1, googleId := some "g1", email := "a@x.com",
             name := "Alice", profileImage := none, googleImage := none,
             onboarding := { completed := false, step := "welcome" },
             stats := { totalEntries := 3, streakDays := 2 } }] 2
          { id := "g2", displayName := "Bob", emails := ["b@x.com"],
            photos := ["https://p/b.jpg"] } =
        .ok (u,
          [{ _id := 1, googleId := some "g1", email := "a@x.com",
             name := "Alice", profileImage := none, googleImage := none,
             onboarding := { completed := false, step := "welcome" },
             stats := { totalEntries := 3, streakDays := 2 } }] ++ [u]) ∧
      u.googleId = some "g2" ∧ u.email = emailNorm "b@x.com" ∧
      u.stats.totalEntries = 0 ∧ u.stats.streakDays = 0 ∧
      u.onboarding.step = "welcome" ∧ u.onboarding.completed = false :=
  fresh_provider_creates_one_identity _ 2
    { id := "g2", displayName := "Bob", emails := ["b@x.com"],
      photos := ["https://p/b.jpg"] }
    "b@x.com" (by decide) (by rfl) (by decide) (by decide) (by decide)

/-- Counterexample to claim C7: a callback with the unseen provider id
`g2` whose email `a@x.com` already belongs to an existing identity, but
whose display name is empty, fails the mongoose required-validation on
`name` — a validation error, raised before the insert ever reaches the
unique email index — and not with a duplicate-key error, refuting the
claim as stated. -/
theorem empty_name_collision_fails_validation_not_dupkey :
    (findByGoogleId
        [{ _id := 1, googleId := some "g1", email := "a@x.com",
           name := "Alice", profileImage := none, googleImage := none,
           onboarding := { completed := false, step := "welcome" },
           stats := { totalEntries := 0, streakDays := 0 } }] "g2" = none) ∧
    googleVerify
        [{ _id := 1, googleId := some "g1", email := "a@x.com",
           name := "Alice", profileImage := none, googleImage := none,
           onboarding := { completed := false, step := "welcome" },
           stats := { totalEntries := 0, streakDays := 0 } }] 2
        { id := "g2", displayName := "", emails := ["a@x.com"],
          photos := [] } =
      .error (.db .validationFailed) ∧
    CallbackError.db .validationFailed ≠ CallbackError.db .duplicateKey :=
  ⟨rfl, rfl, by decide⟩

/-- Amended claim C7: identity matching is strictly by provider id,
never by email alone — a callback with an unseen provider id whose
(nonempty, lowercased) email already belongs to an existing identity and
whose display name is nonempty attempts a fresh create, which fails on
the unique email index with a duplicate-key error, so no identity is
updated, merged or created; with an empty display name the create
instead fails mongoose required-validation before reaching the unique
index, and still nothing is created or updated. -/
theorem unseen_provider_never_matches_by_email (store : List User)
    (nextId : Nat) (profile : GoogleProfile) (e : String) (w : User)
    (hgid : ∀ v ∈ store, v.googleId ≠ some profile.id)
    (hemail : profile.emails.head? = some e)
    (hne : emailNorm e ≠ "") (hname : profile.displayName ≠ "")
    (hfresh : ∀ v ∈ store, v._id ≠ nextId)
    (hw : w ∈ store) (hwe : w.email = emailNorm e) :
    googleVerify store nextId profile = .error (.db .duplicateKey) := by
  have hfind : findByGoogleId store profile.id = none := by
    rw [findByGoogleId, List.find?_eq_none]
    intro v hv
    simp [hgid v hv]
  have hsv : schemaValid (createdUser nextId profile e) = true := by
    simp [schemaValid, createdUser, hne, hname]
  have huv : uniqueViolation store (createdUser nextId profile e) = true := by
    rw [uniqueViolation, List.any_eq_true]
    refine ⟨w, hw, ?_⟩
    simp [createdUser, hwe, hfresh w hw]
  simp only [createdUser] at hsv huv
  simp [googleVerify, hfind, hemail, dbCreate, hsv, huv, createdUser]

/-- Witness for C7 at a concrete store and profile. -/
theorem unseen_provider_never_matches_by_email_witness :
    googleVerify
        [{ _id := 1, googleId := some "g1", email := "a@x.com",
           name := "Alice", profileImage := none, googleImage := none,
           onboarding := { completed := false, step := "welcome" },
           stats := { totalEntries := 0, streakDays := 0 } }] 2
        { id := "g2", displayName := "Bob", emails := ["A@x.com"],
          photos := [] } =
      .error (.db .duplicateKey) :=
  unseen_provider_never_matches_by_email _ 2
    { id := "g2", displayName := "Bob", emails := ["A@x.com"], photos := [] }
    "A@x.com"
    { _id := 1, googleId := some "g1", email := "a@x.com", name := "Alice",
      profileImage := none, googleImage := none,
      onboarding := { completed := false, step := "welcome" },
      stats := { totalEntries := 0, streakDays := 0 } }
    (by decide) (by rfl) (by decide) (by decide) (by decide)
    (by decide) (by decide)

/-- Claim C8: for every environment in which `JWT_SECRET` is unset, the
startup gate exits with the non-zero code 1 before serving, the report
contains a message mentioning `JWT_SECRET`, and the report collects every
violation rather than only the first — witnessed here by the messages of
the other missing required variables also appearing in the same
report. -/
theorem missing_jwt_secret_refuses_startup (e : Env)
    (h : e.JWT_SECRET = none) :
    ∃ msgs, serverStartup e = .exited 1 msgs ∧
      (∃ m ∈ msgs, "JWT_SECRET".data <+: m.data) ∧
      (e.MONGODB_URI = none →
        "MONGODB_URI is required. Get this from MongoDB Atlas dashboard." ∈ msgs) ∧
      (e.SESSION_SECRET = none →
        "SESSION_SECRET is required. Generate a secure random string." ∈ msgs) ∧
      (e.GOOGLE_CLIENT_ID = none →
        "GOOGLE_CLIENT_ID is required. Get from Google Cloud Console." ∈ msgs) := by
  have hm : "JWT_SECRET is required. Generate a secure random string." ∈
      envErrors e := by
    simp [envErrors, checkJwtSecret, h]
  refine ⟨envErrors e, ?_, ⟨_, hm, by decide⟩, ?_, ?_, ?_⟩
  · cases hE : envErrors e with
    | nil => rw [hE] at hm; exact absurd hm (List.not_mem_nil _)
    | cons a l => simp [serverStartup, validateEnvironment, hE]
  · intro hmu
    simp [envErrors, checkMongoUri, hmu]
  · intro hss
    simp [envErrors, checkSessionSecret, hss]
  · intro hgc
    simp [envErrors, checkGoogleClientId, hgc]

/-- Witness for C8 at the empty environment. -/
theorem missing_jwt_secret_refuses_startup_witness :
    ∃ msgs,
      serverStartup
          { MONGODB_URI := none, DO_SPACES_ENDPOINT := none,
            DO_SPACES_BUCKET := none, DO_SPACES_ACCESS_KEY := none,
            DO_SPACES_SECRET_KEY := none, JWT_SECRET := none,
            GOOGLE_CLIENT_ID := none, GOOGLE_CLIENT_SECRET := none,
            SESSION_SECRET := none } = .exited 1 msgs ∧
      (∃ m ∈ msgs, "JWT_SECRET".data <+: m.data) ∧
      ((none : Option String) = none →
        "MONGODB_URI is required. Get this from MongoDB Atlas dashboard." ∈ msgs) ∧
      ((none : Option String) = none →
        "SESSION_SECRET is required. Generate a secure random string." ∈ msgs) ∧
      ((none : Option String) = none →
        "GOOGLE_CLIENT_ID is required. Get from Google Cloud Console." ∈ msgs) :=
  missing_jwt_secret_refuses_startup
    { MONGODB_URI := none, DO_SPACES_ENDPOINT := none,
      DO_SPACES_BUCKET := none, DO_SPACES_ACCESS_KEY := none,
      DO_SPACES_SECRET_KEY := none, JWT_SECRET := none,
      GOOGLE_CLIENT_ID := none, GOOGLE_CLIENT_SECRET := none,
      SESSION_SECRET := none } rfl

end PersonaArcana
